import Mathlib

/-!
Verification of the vpcs device supervisor
(`gns3server/modules/vpcs/vpcs_device.py`).

The module is a process supervisor and configuration-to-argv translator
for an external virtual-PC executable.  We shallowly embed its data model
and operations: the identity allocator (`vpcsDevice.__init__` /
`vpcsDevice.delete` acting on the class-level `_instances` list), the
command builder (`vpcsDevice._build_command`), the process supervisor
(`start` / `stop` / `is_running`), the working-directory setter and the
slot/port binding operations.  External effects (TCP connects, the spawn
syscall, filesystem checks) are parameterised by an explicit environment
so that each code path of the source is represented.
-/

namespace VpcsSpec

/-- Transport binding attached to a port.  Embeds the two nio classes the
source dispatches on in `_build_command` (`NIO_UDP` with fields `lport`,
`rport`, `rhost`, and `NIO_TAP` with field `tap_device`). -/
inductive Nio where
  | udp (lport : Nat) (rport : Nat) (rhost : String)
  | tap (tap_device : String)
deriving DecidableEq, Repr

/-- Modelled from the spec: the `EthernetAdapter` class is imported by the
source file but its code is not part of this repository snapshot.  Per the
spec, an adapter is an ordered list of ports, each port optionally holding
one transport binding; the source iterates `adapter.ports.keys()` and calls
`adapter.get_nio`, `adapter.port_exists`, `adapter.add_nio`.  We represent
the port table as an ordered association list from port id to optional
binding. -/
structure Adapter where
  ports : List (Nat × Option Nio)
deriving DecidableEq, Repr

/-- Modelled from the spec: `portExists(portId) -> bool` checks that the
port id is present in the adapter's port table. -/
def Adapter.port_exists (a : Adapter) (portId : Nat) : Bool :=
  a.ports.any (fun e => e.1 == portId)

/-- Modelled from the spec: `getBinding(portId)` returns the binding held
by the port, or none. -/
def Adapter.get_nio (a : Adapter) (portId : Nat) : Option Nio :=
  match a.ports.find? (fun e => e.1 == portId) with
  | some e => e.2
  | none => none

/-- Modelled from the spec: `addBinding(portId, binding)` stores the
binding on the (existing) port. -/
def Adapter.add_nio (a : Adapter) (portId : Nat) (nio : Nio) : Adapter :=
  ⟨a.ports.map (fun e => if e.1 == portId then (e.1, some nio) else e)⟩

/-- Modelled from the spec: a fresh `EthernetAdapter()` represents one
interface ("one adapter = 1 interfaces" in the source comment): a single
port, numbered 0, with no binding. -/
def defaultEthernetAdapter : Adapter := ⟨[(0, none)]⟩

/-- Device state: the mutable attributes set up by `vpcsDevice.__init__`.
`console` starts as Python `None`, hence `Option Nat`; `process` is the
`Popen` handle (kept abstract as its pid), absent until `start`. -/
structure Device where
  id : Nat
  name : String
  path : String
  console : Option Nat
  working_dir : String
  command : List String
  process : Option Nat
  vpcs_stdout_file : String
  host : String
  started : Bool
  script_file : String
  slots : List Adapter
deriving DecidableEq, Repr

/-- Typed embedding of the `vpcsError` failures raised by the source (the
source raises them with formatted message strings; we keep the data the
messages carry). -/
inductive VpcsErr where
  | invalidSlot (slotId : Nat) (deviceName : String)
  | invalidPort (portId : Nat)
  | notAccessible (path : String)
  | notExecutable (path : String)
  | launchFailed (path : String)
  | mkdirFailed (dir : String)
  | osError
deriving DecidableEq, Repr

/-- Python `str(self._console)`: `None` prints as `"None"`, an integer as
its decimal representation. -/
def consoleStr : Option Nat → String
  | none => "None"
  | some n => toString n

/-- Per-binding argument contribution in `_build_command`: a UDP tunnel
appends `-s lport -c rport -t rhost`; a TAP binding appends only `-e`
(the tap device name is commented out in the source). -/
def nioArgs : Nio → List String
  | .udp lport rport rhost => ["-s", toString lport, "-c", toString rport, "-t", rhost]
  | .tap _ => ["-e"]

/-- Arguments contributed by one adapter: the source iterates
`adapter.ports.keys()` and, for each port whose `get_nio` is a binding,
appends that binding's arguments. -/
def adapterArgs (a : Adapter) : List String :=
  (a.ports.map (fun e => e.1)).foldr
    (fun unit acc =>
      (match a.get_nio unit with
       | some nio => nioArgs nio
       | none => []) ++ acc) []

/-- Embeds `vpcsDevice._build_command`: executable path, `-p console`,
per-port binding arguments in adapter-then-port order, `-m id`, `-i 1`,
then the script file iff it is set (non-empty, Python truthiness). -/
def buildCommand (d : Device) : List String :=
  [d.path] ++ ["-p", consoleStr d.console]
    ++ (d.slots.foldr (fun a acc => adapterArgs a ++ acc) [])
    ++ ["-m", toString d.id] ++ ["-i", "1"]
    ++ (if d.script_file = "" then [] else [d.script_file])

/-- The concrete device configuration of the command-content test case:
console 2000, identity 5, no script file, one adapter whose single port
holds a UDP tunnel binding (local 20001, remote 30001, host 127.0.0.1). -/
def c1Device (path : String) : Device :=
  { id := 5
    name := "vpcs5"
    path := path
    console := some 2000
    working_dir := "/tmp/vpcs/device-5"
    command := []
    process := none
    vpcs_stdout_file := ""
    host := "127.0.0.1"
    started := false
    script_file := ""
    slots := [⟨[(0, some (Nio.udp 20001 30001 "127.0.0.1"))]⟩] }

/-- Claim C1: for a device with console 2000, identity 5, no script file,
and a single adapter whose one bound port holds a UDP tunnel binding
(local 20001, remote 30001, remote host 127.0.0.1), the command builder
returns exactly `[path, "-p","2000", "-s","20001", "-c","30001",
"-t","127.0.0.1", "-m","5", "-i","1"]`; and in general each UDP binding
contributes `-s`,`-c`,`-t` with its fields while each TAP binding
contributes only `-e` with no device name. -/
theorem buildCommand_c1 :
    (∀ path : String,
      buildCommand (c1Device path) =
        [path, "-p", "2000", "-s", "20001", "-c", "30001", "-t", "127.0.0.1",
         "-m", "5", "-i", "1"])
    ∧ (∀ (lport rport : Nat) (rhost : String),
        nioArgs (Nio.udp lport rport rhost) =
          ["-s", toString lport, "-c", toString rport, "-t", rhost])
    ∧ (∀ dev : String, nioArgs (Nio.tap dev) = ["-e"])
    ∧ (∀ d : Device,
        buildCommand d =
          [d.path, "-p", consoleStr d.console]
            ++ (d.slots.foldr (fun a acc => adapterArgs a ++ acc) [])
            ++ ["-m", toString d.id, "-i", "1"]
            ++ (if d.script_file = "" then [] else [d.script_file])) := by
  refine ⟨fun path => ?_, fun lport rport rhost => rfl, fun dev => rfl, fun d => ?_⟩
  · simp only [buildCommand, c1Device, adapterArgs, Adapter.get_nio, nioArgs, consoleStr]
    rfl
  · simp [buildCommand]

/-- Claim C6: when a script file is set (non-empty), it is the last element
of the argument vector, after `-m <identity>` and `-i 1`; when no script
file is set, no trailing positional argument is appended. -/
theorem buildCommand_script_file (d : Device) :
    (d.script_file ≠ "" →
      buildCommand d =
        ([d.path, "-p", consoleStr d.console]
          ++ (d.slots.foldr (fun a acc => adapterArgs a ++ acc) [])
          ++ ["-m", toString d.id, "-i", "1"]) ++ [d.script_file]
      ∧ (buildCommand d).getLast? = some d.script_file)
    ∧ (d.script_file = "" →
      buildCommand d =
        [d.path, "-p", consoleStr d.console]
          ++ (d.slots.foldr (fun a acc => adapterArgs a ++ acc) [])
          ++ ["-m", toString d.id, "-i", "1"]) := by
  constructor
  · intro h
    have hb : buildCommand d =
        ([d.path, "-p", consoleStr d.console]
          ++ (d.slots.foldr (fun a acc => adapterArgs a ++ acc) [])
          ++ ["-m", toString d.id, "-i", "1"]) ++ [d.script_file] := by
      simp [buildCommand, h]
    refine ⟨hb, ?_⟩
    rw [hb, List.getLast?_concat]
  · intro h
    simp [buildCommand, h]

/-- Witness for C6 at a concrete device with script file "start.vpc". -/
theorem buildCommand_script_file_witness :
    buildCommand { c1Device "vpcs" with script_file := "start.vpc" } =
      ([(c1Device "vpcs").path, "-p",
        consoleStr ({ c1Device "vpcs" with script_file := "start.vpc" } : Device).console]
        ++ (({ c1Device "vpcs" with script_file := "start.vpc" } : Device).slots.foldr
              (fun a acc => adapterArgs a ++ acc) [])
        ++ ["-m", toString ({ c1Device "vpcs" with script_file := "start.vpc" } : Device).id,
            "-i", "1"]) ++ ["start.vpc"]
    ∧ (buildCommand { c1Device "vpcs" with script_file := "start.vpc" }).getLast?
        = some "start.vpc" :=
  (buildCommand_script_file { c1Device "vpcs" with script_file := "start.vpc" }).1
    (by decide)

/-! ## Identity allocator

`vpcsDevice.__init__` scans `range(1, 256)` for the first identifier not in
the class-level `_instances` list, appends it and uses it; if none is free
the candidate stays 0 and a `vpcsError` is raised.  `vpcsDevice.delete`
calls `self._instances.remove(self._id)`. -/

/-- The `for identifier in range(1, 256)` scan of `vpcsDevice.__init__`:
starting at candidate `i` with `fuel` candidates left, return the first
candidate not in `instances`. -/
def findFree (instances : List Nat) : Nat → Nat → Option Nat
  | 0, _ => none
  | fuel + 1, i => if i ∈ instances then findFree instances fuel (i + 1) else some i

/-- Identity allocation as performed by `vpcsDevice.__init__` on the
`_instances` list: first free identifier in [1, 255] is appended and
returned; exhaustion raises `vpcsError("Maximum number of vpcs instances
reached")`. -/
def allocateId (instances : List Nat) : Except String (Nat × List Nat) :=
  match findFree instances 255 1 with
  | some k => .ok (k, instances ++ [k])
  | none => .error "Maximum number of vpcs instances reached"

/-- One identity-allocator event: a device construction (which allocates)
or the deletion of the device holding identity `k` (which releases it via
`list.remove`, dropping the first occurrence). -/
inductive AllocOp where
  | construct
  | delete (k : Nat)
deriving DecidableEq, Repr

/-- Effect of one event on the `_instances` list (a failed construction
leaves the list unchanged, since the raised error aborts `__init__` after
the scan found nothing). -/
def applyOp (instances : List Nat) : AllocOp → List Nat
  | .construct =>
    match allocateId instances with
    | .ok p => p.2
    | .error _ => instances
  | .delete k => instances.erase k

/-- The `_instances` list after a sequence of constructions and deletions,
starting from the initial empty class attribute. -/
def runOps (ops : List AllocOp) : List Nat := ops.foldl applyOp []

lemma findFree_some_spec (instances : List Nat) :
    ∀ (fuel i k : Nat), findFree instances fuel i = some k →
      k ∉ instances ∧ i ≤ k ∧ k < i + fuel ∧
        ∀ j, i ≤ j → j < k → j ∈ instances := by
  intro fuel
  induction fuel with
  | zero => intro i k h; simp [findFree] at h
  | succ fuel ih =>
    intro i k h
    rw [findFree] at h
    by_cases hm : i ∈ instances
    · rw [if_pos hm] at h
      obtain ⟨h1, h2, h3, h4⟩ := ih (i + 1) k h
      refine ⟨h1, by omega, by omega, ?_⟩
      intro j hj1 hj2
      rcases Nat.eq_or_lt_of_le hj1 with heq | hlt
      · exact heq ▸ hm
      · exact h4 j hlt hj2
    · rw [if_neg hm] at h
      obtain rfl : i = k := Option.some.injEq .. ▸ h
      exact ⟨hm, Nat.le_refl i, by omega, fun j hj1 hj2 => absurd hj1 (by omega)⟩

lemma findFree_exhausted (instances : List Nat) :
    ∀ (fuel i : Nat), (∀ j, i ≤ j → j < i + fuel → j ∈ instances) →
      findFree instances fuel i = none := by
  intro fuel
  induction fuel with
  | zero => intro i _; rfl
  | succ fuel ih =>
    intro i h
    rw [findFree, if_pos (h i (Nat.le_refl i) (by omega))]
    exact ih (i + 1) (fun j hj1 hj2 => h j (by omega) (by omega))

lemma findFree_min (instances : List Nat) :
    ∀ (fuel i k : Nat), i ≤ k → k < i + fuel → k ∉ instances →
      (∀ j, i ≤ j → j < k → j ∈ instances) →
      findFree instances fuel i = some k := by
  intro fuel
  induction fuel with
  | zero => intro i k h1 h2; omega
  | succ fuel ih =>
    intro i k h1 h2 h3 h4
    rw [findFree]
    by_cases hm : i ∈ instances
    · rw [if_pos hm]
      have hik : i ≠ k := fun he => h3 (he ▸ hm)
      exact ih (i + 1) k (by omega) (by omega) h3
        (fun j hj1 hj2 => h4 j (by omega) hj2)
    · rw [if_neg hm]
      have : i = k := by
        by_contra hne
        exact hm (h4 i (Nat.le_refl i) (by omega))
      rw [this]

lemma allocateId_ok_spec (instances : List Nat) (k : Nat) (l : List Nat)
    (h : allocateId instances = .ok (k, l)) :
    k ∉ instances ∧ 1 ≤ k ∧ k ≤ 255 ∧
      (∀ j, 1 ≤ j → j < k → j ∈ instances) ∧ l = instances ++ [k] := by
  rw [allocateId] at h
  cases hf : findFree instances 255 1 with
  | none => rw [hf] at h; exact absurd h (by simp)
  | some m =>
    rw [hf] at h
    have h2 : (m, instances ++ [m]) = (k, l) := by injection h
    rw [Prod.mk.injEq] at h2
    obtain ⟨h3, h4⟩ := h2
    rw [h3] at hf
    obtain ⟨g1, g2, g3, g4⟩ := findFree_some_spec instances 255 1 k hf
    exact ⟨g1, g2, by omega, g4, (h3 ▸ h4).symm⟩

/-- The allocator invariant: identities on the `_instances` list are
pairwise distinct and each lies in [1, 255]. -/
def AllocInvariant (l : List Nat) : Prop :=
  l.Nodup ∧ ∀ x ∈ l, 1 ≤ x ∧ x ≤ 255

lemma allocInvariant_applyOp (l : List Nat) (op : AllocOp)
    (h : AllocInvariant l) : AllocInvariant (applyOp l op) := by
  obtain ⟨hnd, hrange⟩ := h
  cases op with
  | construct =>
    cases ha : allocateId l with
    | error e =>
      simp only [applyOp, ha]
      exact ⟨hnd, hrange⟩
    | ok p =>
      obtain ⟨h1, h2, h3, _, h5⟩ := allocateId_ok_spec l p.1 p.2 (by rw [ha])
      simp only [applyOp, ha]
      rw [h5]
      constructor
      · simp only [List.nodup_append, List.nodup_cons, List.nodup_nil]
        exact ⟨hnd, by simp, by simp [List.disjoint_singleton, h1]⟩
      · intro x hx
        rcases List.mem_append.mp hx with hx | hx
        · exact hrange x hx
        · obtain rfl : x = p.1 := by simpa using hx
          exact ⟨h2, h3⟩
  | delete k =>
    rw [applyOp]
    exact ⟨hnd.erase k, fun x hx => hrange x (List.mem_of_mem_erase hx)⟩

lemma allocInvariant_foldl (ops : List AllocOp) :
    ∀ l : List Nat, AllocInvariant l → AllocInvariant (ops.foldl applyOp l) := by
  induction ops with
  | nil => intro l h; exact h
  | cons op ops ih =>
    intro l h
    exact ih (applyOp l op) (allocInvariant_applyOp l op h)

/-- Claim C2: over every sequence of device constructions and deletions the
live identities are pairwise distinct and lie in [1, 255]; allocation with
all 255 identities taken fails with the error "Maximum number of vpcs
instances reached"; and a successful allocation returns the smallest free
identity in [1, 255] and appends it to the allocation list. -/
theorem identity_allocation_correct :
    (∀ ops : List AllocOp,
      (runOps ops).Nodup ∧ ∀ x ∈ runOps ops, 1 ≤ x ∧ x ≤ 255)
    ∧ (∀ instances : List Nat, (∀ j ∈ List.range' 1 255, j ∈ instances) →
        allocateId instances = .error "Maximum number of vpcs instances reached")
    ∧ (∀ (instances : List Nat) (k : Nat) (l : List Nat),
        allocateId instances = .ok (k, l) →
          k ∉ instances ∧ 1 ≤ k ∧ k ≤ 255 ∧
            (∀ j, 1 ≤ j → j < k → j ∈ instances) ∧ l = instances ++ [k]) := by
  refine ⟨fun ops => allocInvariant_foldl ops [] ⟨List.nodup_nil, by simp⟩,
    fun instances h => ?_, fun instances k l h => allocateId_ok_spec instances k l h⟩
  rw [allocateId, findFree_exhausted]
  intro j hj1 hj2
  exact h j (by rw [List.mem_range'_1]; omega)

/-- Witness for C2: with every identity in [1, 255] already allocated, the
allocator fails with the resource-exhaustion error. -/
theorem identity_allocation_correct_witness :
    allocateId (List.range' 1 255) =
      .error "Maximum number of vpcs instances reached" :=
  identity_allocation_correct.2.1 (List.range' 1 255) (fun _ hj => hj)

/-! ## Process supervisor

`start`, `stop` and `is_running` interact with the outside world (TCP
connects to the console port, the filesystem, the spawn syscall).  Those
interactions are parameterised by an explicit environment `Env`; each
outcome the source distinguishes (success, an `OSError`-style failure, the
`TypeError` that `stop` catches) is represented. -/

/-- Outcome of the shutdown-signal attempt in `stop` (connect to the
console port, send "quit\n", close).  `typeErr` is the `TypeError` the
source catches and downgrades to a warning; `osErr` is any other exception
of the attempt, which the source does not catch. -/
inductive SigOutcome where
  | delivered
  | typeErr
  | osErr
deriving DecidableEq, Repr

/-- External-world outcomes: the liveness probe connect and the shutdown
signal are functions of the `(host, port)` pair they target, so that a
theorem can show which address the source actually uses. -/
structure Env where
  probeConnects : String → Nat → Bool
  signalOutcome : String → Nat → SigOutcome
  pathIsFile : Bool
  pathIsExec : Bool
  spawnPid : Option Nat

/-- Embeds `vpcsDevice.is_running` and also records whether the TCP probe
was attempted: with no process handle the source returns False at once;
with a handle it tries `connect((host, console))` inside a bare
`try/except` (a `None` console raises `TypeError`, caught, giving False).
First component: the returned boolean; second: probe attempted. -/
def isRunningProbe (env : Env) (d : Device) : Bool × Bool :=
  match d.process with
  | none => (false, false)
  | some _ =>
    match d.console with
    | none => (false, true)
    | some p => (env.probeConnects d.host p, true)

/-- The boolean `vpcsDevice.is_running` returns. -/
def is_running (env : Env) (d : Device) : Bool := (isRunningProbe env d).1

/-- Result of `stop`: the device state afterward, and the exception it
propagates, if any (`none` = returned normally). -/
structure StopResult where
  device : Device
  error : Option VpcsErr
deriving DecidableEq, Repr

/-- Embeds `vpcsDevice.stop`: when the liveness probe reports running, a
socket connects to `(host, console)` and sends "quit\n"; only a
`TypeError` of that attempt is caught (logged as a warning); any other
exception propagates, skipping the final two assignments.  When no error
propagates, `self._process = None` and `self._started = False` run. -/
def stop (env : Env) (d : Device) : StopResult :=
  if is_running env d then
    match d.console with
    | some p =>
      match env.signalOutcome d.host p with
      | .osErr => ⟨d, some VpcsErr.osError⟩
      | _ => ⟨{ d with process := none, started := false }, none⟩
    | none => ⟨{ d with process := none, started := false }, none⟩
  else
    ⟨{ d with process := none, started := false }, none⟩

/-- Result of `start`: device state afterward, propagated exception if
any, and whether a process was spawned. -/
structure StartResult where
  device : Device
  error : Option VpcsErr
  spawned : Bool
deriving DecidableEq, Repr

/-- Embeds `vpcsDevice.start`: a no-op when the liveness probe reports
running; otherwise checks the executable path (`os.path.isfile`,
`os.access(..., X_OK)`), rebuilds `self._command`, sets the log-file path
`<working_dir>/vpcs.log`, and spawns; on spawn failure (`OSError`) the
command and log path remain set but no process is recorded. -/
def start (env : Env) (d : Device) : StartResult :=
  if is_running env d then ⟨d, none, false⟩
  else if env.pathIsFile = false then ⟨d, some (VpcsErr.notAccessible d.path), false⟩
  else if env.pathIsExec = false then ⟨d, some (VpcsErr.notExecutable d.path), false⟩
  else
    let d1 := { d with command := buildCommand d,
                       vpcs_stdout_file := d.working_dir ++ "/vpcs.log" }
    match env.spawnPid with
    | some pid => ⟨{ d1 with process := some pid, started := true }, none, true⟩
    | none => ⟨d1, some (VpcsErr.launchFailed d.path), false⟩

/-- Embeds `vpcsDevice.delete`: `stop()` first, then
`self._instances.remove(self._id)`.  If `stop` propagates an exception the
removal never runs and the identity stays allocated. -/
def deleteDevice (env : Env) (d : Device) (instances : List Nat) :
    List Nat × Option VpcsErr :=
  match (stop env d).error with
  | some e => (instances, some e)
  | none => (instances.erase d.id, none)

/-- A running device used to instantiate the supervisor theorems: process
handle present, console 2000, started. -/
def runningDevice : Device :=
  { id := 1
    name := "vpcs1"
    path := "/usr/bin/vpcs"
    console := some 2000
    working_dir := "/tmp/vpcs/device-1"
    command := []
    process := some 42
    vpcs_stdout_file := ""
    host := "127.0.0.1"
    started := true
    script_file := ""
    slots := [defaultEthernetAdapter] }

/-- Environment in which the probe connects and the shutdown signal fails
with an uncaught (non-TypeError) exception. -/
def envSignalOsErr : Env :=
  { probeConnects := fun _ _ => true
    signalOutcome := fun _ _ => SigOutcome.osErr
    pathIsFile := true
    pathIsExec := true
    spawnPid := none }

/-- Environment in which the probe connects and the shutdown signal fails
with the `TypeError` the source catches. -/
def envSignalTypeErr : Env :=
  { probeConnects := fun _ _ => true
    signalOutcome := fun _ _ => SigOutcome.typeErr
    pathIsFile := true
    pathIsExec := true
    spawnPid := none }

/-- Environment in which everything succeeds. -/
def envAllOk : Env :=
  { probeConnects := fun _ _ => true
    signalOutcome := fun _ _ => SigOutcome.delivered
    pathIsFile := true
    pathIsExec := true
    spawnPid := some 101 }

/-- Counterexample to claim C3 as stated: `stop` does not clear the
process handle in every case.  When the probe reports running and the
shutdown signal fails with an exception other than the caught `TypeError`,
`stop` propagates it and the handle and started flag survive. -/
theorem stop_not_always_cleared :
    ¬ ∀ (env : Env) (d : Device),
        (stop env d).device.process = none ∧ (stop env d).device.started = false := by
  intro h
  have h1 := (h envSignalOsErr runningDevice).1
  have h2 : (stop envSignalOsErr runningDevice).device.process = some 42 := rfl
  rw [h1] at h2
  exact Option.noConfusion h2

/-- Claim C3 as amended: whenever `stop` returns without propagating an
exception, the process handle is cleared and the started flag is false —
in particular when the device was not running, and when signal delivery
failed with the caught `TypeError`; but a delivery failure of any other
kind propagates before the two clearing assignments run, leaving the
device state unchanged. -/
theorem stop_clears_state (env : Env) (d : Device) :
    ((stop env d).error = none →
      (stop env d).device.process = none ∧ (stop env d).device.started = false)
    ∧ ((stop env d).error.isSome →
        (stop env d).device = d ∧ is_running env d = true)
    ∧ (is_running env d = false →
        stop env d = ⟨{ d with process := none, started := false }, none⟩)
    ∧ (∀ p, d.console = some p →
        env.signalOutcome d.host p = SigOutcome.typeErr →
        (stop env d).error = none) := by
  by_cases hr : is_running env d
  · cases hc : d.console with
    | none =>
      refine ⟨?_, ?_, fun h => absurd hr (by rw [h]; exact Bool.false_ne_true), ?_⟩
      · intro _; simp [stop, hr, hc]
      · intro h; simp [stop, hr, hc] at h
      · intro p hp
        exact Option.noConfusion hp
    | some p =>
      cases hs : env.signalOutcome d.host p with
      | osErr =>
        refine ⟨?_, ?_, fun h => absurd hr (by rw [h]; exact Bool.false_ne_true), ?_⟩
        · intro h; simp [stop, hr, hc, hs] at h
        · intro _; simp [stop, hr, hc, hs]
        · intro q hq hts
          injection hq with hpq
          rw [← hpq, hs] at hts
          exact SigOutcome.noConfusion hts
      | delivered =>
        refine ⟨?_, ?_, fun h => absurd hr (by rw [h]; exact Bool.false_ne_true), ?_⟩
        · intro _; simp [stop, hr, hc, hs]
        · intro h; simp [stop, hr, hc, hs] at h
        · intro q hq hts; simp [stop, hr, hc, hs]
      | typeErr =>
        refine ⟨?_, ?_, fun h => absurd hr (by rw [h]; exact Bool.false_ne_true), ?_⟩
        · intro _; simp [stop, hr, hc, hs]
        · intro h; simp [stop, hr, hc, hs] at h
        · intro q hq hts; simp [stop, hr, hc, hs]
  · rw [Bool.not_eq_true] at hr
    refine ⟨?_, ?_, fun _ => by simp [stop, hr], ?_⟩
    · intro _; simp [stop, hr]
    · intro h; simp [stop, hr] at h
    · intro p hp hts; simp [stop, hr]

/-- Witness for amended C3: a running device whose shutdown signal fails
with the caught `TypeError` still ends with the handle cleared, and `stop`
returns normally. -/
theorem stop_clears_state_witness :
    (stop envSignalTypeErr runningDevice).error = none ∧
    (stop envSignalTypeErr runningDevice).device.process = none ∧
    (stop envSignalTypeErr runningDevice).device.started = false := by
  have h := stop_clears_state envSignalTypeErr runningDevice
  have he : (stop envSignalTypeErr runningDevice).error = none :=
    h.2.2.2 2000 rfl rfl
  exact ⟨he, h.1 he⟩

/-- Claim C4: while the liveness probe reports the device running, `start`
is a no-op: no spawn, no error, and the device state (process handle,
started flag, command, log-file path, everything) is returned unchanged. -/
theorem start_noop_when_running (env : Env) (d : Device)
    (h : is_running env d = true) : start env d = ⟨d, none, false⟩ := by
  simp [start, h]

/-- Witness for C4 at the concrete running device. -/
theorem start_noop_when_running_witness :
    start envAllOk runningDevice = ⟨runningDevice, none, false⟩ :=
  start_noop_when_running envAllOk runningDevice rfl

/-- Claim C10: with no process handle recorded, `is_running` returns false
without attempting a TCP connection; the probe is attempted exactly when a
process handle is present. -/
theorem is_running_requires_process (env : Env) (d : Device) :
    (d.process = none → isRunningProbe env d = (false, false))
    ∧ ((isRunningProbe env d).2 = true ↔ d.process.isSome)
    ∧ is_running env d = (isRunningProbe env d).1 := by
  refine ⟨fun h => by simp [isRunningProbe, h], ?_, rfl⟩
  cases hp : d.process with
  | none => simp [isRunningProbe, hp]
  | some pid =>
    cases hc : d.console with
    | none => simp [isRunningProbe, hp, hc]
    | some p => simp [isRunningProbe, hp, hc]

/-- Witness for C10: a device that was never started (no handle) reports
not running with no probe attempted. -/
theorem is_running_requires_process_witness :
    isRunningProbe envAllOk { runningDevice with process := none } = (false, false) :=
  (is_running_requires_process envAllOk { runningDevice with process := none }).1 rfl

/-- Device used to instantiate the deletion theorem: identity 2, no
process handle (so `stop` trivially returns normally). -/
def releasedDevice : Device := { runningDevice with id := 2, process := none }

/-- Claim C7: deleting a device removes its identity from the allocation
list (`list.remove` drops the first occurrence, so under the allocator
invariant the identity is gone), and a subsequent construction may reuse
it: if it is the smallest free identity afterwards, allocation returns
exactly it. -/
theorem delete_releases_identity (env : Env) (d : Device) (instances : List Nat) :
    ((stop env d).error = none →
      deleteDevice env d instances = (instances.erase d.id, none))
    ∧ (instances.Nodup → d.id ∈ instances → d.id ∉ instances.erase d.id)
    ∧ (1 ≤ d.id → d.id ≤ 255 → d.id ∉ instances.erase d.id →
        (∀ j, 1 ≤ j → j < d.id → j ∈ instances.erase d.id) →
        allocateId (instances.erase d.id) =
          .ok (d.id, instances.erase d.id ++ [d.id])) := by
  refine ⟨fun h => ?_, fun hnd _ => ?_, fun h1 h2 h3 h4 => ?_⟩
  · rw [deleteDevice, h]
  · intro hmem
    exact absurd rfl (List.Nodup.mem_erase_iff hnd |>.mp hmem).1
  · rw [allocateId,
      findFree_min (instances.erase d.id) 255 1 d.id h1 (by omega) h3
        (fun j hj1 hj2 => h4 j hj1 hj2)]

/-- Witness for C7: deleting identity 2 from the live set {1, 2, 3}
releases it, and the next allocation returns exactly 2 again. -/
theorem delete_releases_identity_witness :
    deleteDevice envAllOk releasedDevice [1, 2, 3] = ([1, 3], none)
    ∧ allocateId [1, 3] = .ok (2, [1, 3, 2]) := by
  have h := delete_releases_identity envAllOk releasedDevice [1, 2, 3]
  constructor
  · rw [h.1 rfl]; rfl
  · exact h.2.2 (by decide) (by decide) (by decide)
      (fun j hj1 hj2 => by
        have hj2' : j < 2 := hj2
        have hj : j = 1 := by omega
        rw [hj]; decide)

/-! ## Working directory -/

/-- `os.path.join` on a posix host with relative second component. -/
def joinPath (a b : String) : String := a ++ "/" ++ b

/-- The directory the setter derives:
`os.path.join(working_dir, "vpcs", "device-{id}")`. -/
def workingDirPath (base : String) (id : Nat) : String :=
  joinPath (joinPath base "vpcs") ("device-" ++ toString id)

/-- Embeds the `working_dir` property setter: derives
`<base>/vpcs/device-<id>`, runs `os.makedirs` on it (`fs` is the set of
directories that already exist; `osFailure` injects any other `OSError`),
passes on `FileExistsError`, wraps any other `OSError` in a `vpcsError`,
and records the directory on the device. -/
def setWorkingDir (d : Device) (fs : List String) (osFailure : Bool)
    (base : String) : Except VpcsErr (Device × List String) :=
  if workingDirPath base d.id ∈ fs then
    .ok ({ d with working_dir := workingDirPath base d.id }, fs)
  else if osFailure then .error (VpcsErr.mkdirFailed (workingDirPath base d.id))
  else
    .ok ({ d with working_dir := workingDirPath base d.id },
      workingDirPath base d.id :: fs)

/-- Claim C8: the setter sets the working directory to
`<base>/vpcs/device-<identity>` and creates it if absent; a second
invocation with the same base succeeds (the already-exists condition is
passed over), while any other OS failure creating an absent directory
surfaces as an error. -/
theorem working_dir_setter (d : Device) (fs : List String) (base : String) :
    (∃ d1 fs1,
      setWorkingDir d fs false base = .ok (d1, fs1)
      ∧ d1 = { d with working_dir := workingDirPath base d.id }
      ∧ workingDirPath base d.id ∈ fs1
      ∧ ∀ osF : Bool, setWorkingDir d1 fs1 osF base = .ok (d1, fs1))
    ∧ (workingDirPath base d.id ∉ fs →
        setWorkingDir d fs true base =
          .error (VpcsErr.mkdirFailed (workingDirPath base d.id))) := by
  constructor
  · by_cases hm : workingDirPath base d.id ∈ fs
    · refine ⟨{ d with working_dir := workingDirPath base d.id }, fs,
        by rw [setWorkingDir, if_pos hm], rfl, hm, fun osF => ?_⟩
      rw [setWorkingDir, if_pos hm]
    · refine ⟨{ d with working_dir := workingDirPath base d.id },
        workingDirPath base d.id :: fs, ?_, rfl, List.mem_cons_self _ _, fun osF => ?_⟩
      · rw [setWorkingDir, if_neg hm, if_neg (by simp)]
      · rw [setWorkingDir, if_pos (List.mem_cons_self _ _)]
  · intro hm
    rw [setWorkingDir, if_neg hm, if_pos rfl]

/-- Witness for C8: with no directory yet existing, the setter creates
`/tmp/vpcs/device-1` idempotently, and an injected OS failure on the
absent directory surfaces the error; the derived path evaluates to the
expected literal. -/
theorem working_dir_setter_witness :
    workingDirPath "/tmp" runningDevice.id = "/tmp/vpcs/device-1"
    ∧ setWorkingDir runningDevice [] true "/tmp" =
        .error (VpcsErr.mkdirFailed (workingDirPath "/tmp" runningDevice.id)) :=
  ⟨rfl, (working_dir_setter runningDevice [] "/tmp").2 (by decide)⟩

lemma setWorkingDir_ok_state (d : Device) (fs : List String) (osF : Bool)
    (base : String) (d1 : Device) (fs1 : List String)
    (h : setWorkingDir d fs osF base = .ok (d1, fs1)) :
    d1 = { d with working_dir := workingDirPath base d.id } := by
  rw [setWorkingDir] at h
  by_cases h1 : workingDirPath base d.id ∈ fs
  · rw [if_pos h1] at h
    injection h with h'
    rw [Prod.mk.injEq] at h'
    exact h'.1.symm
  · rw [if_neg h1] at h
    by_cases h2 : osF = true
    · rw [if_pos h2] at h
      exact absurd h (by simp)
    · rw [if_neg h2] at h
      injection h with h'
      rw [Prod.mk.injEq] at h'
      exact h'.1.symm

/-! ## Constructor -/

/-- The device state assembled by `vpcsDevice.__init__` after the identity
scan and before the working-directory setter runs: the display name
defaults to `vpcs<id>` when the `name` argument is Python-falsy (absent or
empty), and the stored host is the literal "127.0.0.1" whatever host the
caller supplied. -/
def initialDevice (path : String) (name : Option String) (idv : Nat) : Device :=
  { id := idv
    name :=
      match name with
      | some n => if n = "" then "vpcs" ++ toString idv else n
      | none => "vpcs" ++ toString idv
    path := path
    console := none
    working_dir := ""
    command := []
    process := none
    vpcs_stdout_file := ""
    host := "127.0.0.1"
    started := false
    script_file := ""
    slots := [defaultEthernetAdapter] }

/-- Embeds `vpcsDevice.__init__`: allocate an identity, build the initial
attribute state (note the `host` argument is accepted but not stored),
then run the working-directory setter.  Returns the device, the updated
`_instances` list and the updated filesystem. -/
def mkDevice (instances : List Nat) (fs : List String) (path base host : String)
    (name : Option String) (osFailure : Bool) :
    Except String (Device × List Nat × List String) :=
  match allocateId instances with
  | .error e => .error e
  | .ok (idv, instances2) =>
    match setWorkingDir (initialDevice path name idv) fs osFailure base with
    | .error _ =>
      .error ("Could not create working directory " ++ workingDirPath base idv)
    | .ok (d1, fs2) => .ok (d1, instances2, fs2)

/-- Claim C9: the `host` constructor argument is ignored — the stored host
of every successfully constructed device is the literal "127.0.0.1", so
the liveness probe and the shutdown signal of such a device (once it has a
process handle and console port) connect to `("127.0.0.1", consolePort)`
regardless of the host the caller supplied. -/
theorem host_argument_ignored (instances : List Nat) (fs : List String)
    (path base host : String) (name : Option String) (osFailure : Bool)
    (d : Device) (instances2 : List Nat) (fs2 : List String)
    (h : mkDevice instances fs path base host name osFailure =
      .ok (d, instances2, fs2)) :
    d.host = "127.0.0.1"
    ∧ (∀ (env : Env) (pid p : Nat),
        is_running env { d with process := some pid, console := some p } =
          env.probeConnects "127.0.0.1" p)
    ∧ (∀ (env : Env) (pid p : Nat),
        (stop env { d with process := some pid, console := some p }).error =
          if env.probeConnects "127.0.0.1" p then
            match env.signalOutcome "127.0.0.1" p with
            | SigOutcome.osErr => some VpcsErr.osError
            | _ => none
          else none) := by
  have hhost : d.host = "127.0.0.1" := by
    cases ha : allocateId instances with
    | error e => simp only [mkDevice, ha] at h; exact absurd h (by simp)
    | ok pr =>
      obtain ⟨idv, inst2⟩ := pr
      simp only [mkDevice, ha] at h
      cases hs : setWorkingDir (initialDevice path name idv) fs osFailure base with
      | error e => rw [hs] at h; exact absurd h (by simp)
      | ok q =>
        obtain ⟨d1, fs2t⟩ := q
        rw [hs] at h
        injection h with h'
        rw [Prod.mk.injEq] at h'
        rw [← h'.1, setWorkingDir_ok_state _ _ _ _ _ _ hs]
        rfl
  refine ⟨hhost, fun env pid p => ?_, fun env pid p => ?_⟩
  · simp [is_running, isRunningProbe, hhost]
  · by_cases hp : env.probeConnects "127.0.0.1" p
    · cases hso : env.signalOutcome "127.0.0.1" p <;>
        simp [stop, is_running, isRunningProbe, hhost, hp, hso]
    · simp [stop, is_running, isRunningProbe, hhost, hp]

/-- The device `mkDevice` produces from an empty allocation list and an
empty filesystem with base "/tmp" (identity 1, derived name and working
directory, host forced to 127.0.0.1). -/
def constructedDevice : Device :=
  { id := 1
    name := "vpcs1"
    path := "/usr/bin/vpcs"
    console := none
    working_dir := "/tmp/vpcs/device-1"
    command := []
    process := none
    vpcs_stdout_file := ""
    host := "127.0.0.1"
    started := false
    script_file := ""
    slots := [defaultEthernetAdapter] }

/-- Witness for C9: constructing with caller-supplied host
"192.168.1.50" still stores host "127.0.0.1". -/
theorem host_argument_ignored_witness :
    mkDevice [] [] "/usr/bin/vpcs" "/tmp" "192.168.1.50" none false =
      .ok (constructedDevice, [1], ["/tmp/vpcs/device-1"])
    ∧ constructedDevice.host = "127.0.0.1" := by
  have hmk : mkDevice [] [] "/usr/bin/vpcs" "/tmp" "192.168.1.50" none false =
      .ok (constructedDevice, [1], ["/tmp/vpcs/device-1"]) := rfl
  exact ⟨hmk,
    (host_argument_ignored [] [] "/usr/bin/vpcs" "/tmp" "192.168.1.50" none false
      constructedDevice [1] ["/tmp/vpcs/device-1"] hmk).1⟩

/-! ## Slot bindings -/

/-- Embeds `vpcsDevice.slot_add_nio_binding`: resolve the adapter by slot
index (an out-of-range index raises the slot error naming the slot and the
device), check the port exists on that adapter (otherwise raise the port
error), then store the binding.  The pair carries the device state after
the call and the raised error, if any: on an error the device is returned
unchanged, mirroring that the source raises before `add_nio` runs. -/
def slot_add_nio_binding (d : Device) (slotId portId : Nat) (nio : Nio) :
    Device × Option VpcsErr :=
  match d.slots[slotId]? with
  | none => (d, some (VpcsErr.invalidSlot slotId d.name))
  | some adapter =>
    if adapter.port_exists portId then
      ({ d with slots := d.slots.set slotId (adapter.add_nio portId nio) }, none)
    else (d, some (VpcsErr.invalidPort portId))

/-- Claim C5: `slot_add_nio_binding` with a slot index out of range fails
with the invalid-slot error naming the slot and the device; with a valid
slot but a port id that does not exist on that adapter it fails with the
invalid-port error; in both failure cases the device (hence its binding
registry) is unchanged. -/
theorem slot_binding_errors (d : Device) (slotId portId : Nat) (nio : Nio) :
    (d.slots.length ≤ slotId →
      slot_add_nio_binding d slotId portId nio =
        (d, some (VpcsErr.invalidSlot slotId d.name)))
    ∧ (∀ a : Adapter, d.slots[slotId]? = some a → a.port_exists portId = false →
        slot_add_nio_binding d slotId portId nio =
          (d, some (VpcsErr.invalidPort portId))) := by
  constructor
  · intro hlen
    simp [slot_add_nio_binding, List.getElem?_eq_none hlen]
  · intro a ha hpe
    simp [slot_add_nio_binding, ha, hpe]

/-- Witness for C5: on the one-adapter device, slot 5 raises the
invalid-slot error carrying slot and device name, and port 7 of slot 0
raises the invalid-port error; the device is unchanged in both cases. -/
theorem slot_binding_errors_witness :
    slot_add_nio_binding runningDevice 5 0 (Nio.tap "tap0") =
      (runningDevice, some (VpcsErr.invalidSlot 5 "vpcs1"))
    ∧ slot_add_nio_binding runningDevice 0 7 (Nio.tap "tap0") =
      (runningDevice, some (VpcsErr.invalidPort 7)) :=
  ⟨(slot_binding_errors runningDevice 5 0 (Nio.tap "tap0")).1 (by decide),
   (slot_binding_errors runningDevice 0 7 (Nio.tap "tap0")).2
     defaultEthernetAdapter (by decide) (by decide)⟩

end VpcsSpec
